import Mathlib

/-!
Shallow embedding of src/cpu_temps.py.

The script has three parts:
  * sensor acquisition and key-path extraction (lines 96-105),
  * the session runner report_cpu_temps (lines 77-130),
  * the backoff supervisor loop at module scope (lines 133-152),
plus config loading at module scope (lines 40-73).

Wall-clock times and float arithmetic are modelled over the rationals; the
environment (sensor output, write successes, call durations, the random
exponent) is passed in explicitly.
-/

namespace CpuTemps

/-- Python exception classes that the script's except clauses distinguish. -/
inductive PyExc where
  | keyError
  | typeError
  | valueError
  | osError
  deriving DecidableEq, Repr

/-- A parsed JSON value, as produced by json5.loads on the sensors output. -/
inductive Json where
  | null
  | bool (b : Bool)
  | num (q : ℚ)
  | str (s : String)
  | arr (elems : List Json)
  | obj (fields : List (String × Json))

/-- Whether a JSON value is Python's None. -/
def Json.isNull : Json → Bool
  | .null => true
  | _ => false

/-- Python subscripting result[apc] for a string key apc (line 101): a dict
lookup raises KeyError when the key is missing; subscripting a list with a
string key, or any non-container value (a number, string leaf, bool or None),
raises TypeError. -/
def subscript (j : Json) (key : String) : Except PyExc Json :=
  match j with
  | .obj fields =>
    match fields.lookup key with
    | some v => .ok v
    | none => .error .keyError
  | _ => .error .typeError

/-- The loop for apc in temp_access_path: result = result[apc] (lines 100-101). -/
def walkPath (path : List String) (j : Json) : Except PyExc Json :=
  match path with
  | [] => .ok j
  | k :: rest =>
    match subscript j k with
    | .ok v => walkPath rest v
    | .error e => .error e

/-- Decimal forms accepted by Python's float(str): an optional sign, digits
with at most one decimal point, at least one digit. (Scientific notation and
inf/nan are accepted by Python too but never arise from the sensor values the
claims exercise.) Returns none when the string does not parse. -/
def parsePyFloat (s : String) : Option ℚ :=
  let signed : ℚ × List Char :=
    match s.toList with
    | '-' :: rest => (-1, rest)
    | '+' :: rest => (1, rest)
    | cs => (1, cs)
  let cs := signed.2
  if cs.all (fun c => c.isDigit || c == '.') &&
      ((cs.filter (fun c => c == '.')).length ≤ 1) && cs.any Char.isDigit then
    let ipart := cs.takeWhile (fun c => c ≠ '.')
    let fpart := (cs.dropWhile (fun c => c ≠ '.')).drop 1
    let iVal : ℚ := (ipart.foldl (fun n c => n * 10 + (c.toNat - 48)) 0 : ℕ)
    let fVal : ℚ := (fpart.foldl (fun n c => n * 10 + (c.toNat - 48)) 0 : ℕ)
    some (signed.1 * (iVal + fVal / (10 ^ fpart.length)))
  else
    none

/-- Python's float(x) applied to a JSON leaf (line 102): numbers pass through,
bools coerce to 0/1, numeric strings are parsed (ValueError on failure), and
None, lists and dicts raise TypeError. -/
def pyFloat (j : Json) : Except PyExc ℚ :=
  match j with
  | .num q => .ok q
  | .bool b => .ok (if b then 1 else 0)
  | .str s =>
    match parsePyFloat s with
    | some q => .ok q
    | none => .error .valueError
  | _ => .error .typeError

/-- Lines 100-102: walk temp_access_path through the parsed sensor output and
coerce the leaf with float(). -/
def extractTemp (path : List String) (j : Json) : Except PyExc ℚ :=
  match walkPath path j with
  | .ok v => pyFloat v
  | .error e => .error e

/-- The exception tuple (OSError, KeyError, ValueError) caught both by the
sensor-read handler at line 103 and by the startup config handlers at lines
61-66. TypeError is not in it. -/
def recoverableExc (e : PyExc) : Bool :=
  match e with
  | .osError => true
  | .keyError => true
  | .valueError => true
  | .typeError => false

/-- Environment of one iteration of the session's while loop: how long the
acquisition block (lines 96-102, up to the float coercion) takes, what
subprocess plus json5.loads deliver (lines 96-99), how long the influx write
call takes, and whether it succeeds (line 121). -/
structure IterEvent where
  acqDur : ℚ
  sensorRaw : Except PyExc Json
  writeDur : ℚ
  writeOk : Bool

/-- How a call of report_cpu_temps ends: a normal return carrying
(last_report_time - start).total_seconds(), an uncaught exception escaping
the function, or still running when the modelled event list ends. -/
inductive SessionResult where
  | returns (elapsed : ℚ)
  | raises (e : PyExc)
  | running
  deriving DecidableEq, Repr

/-- The while True loop of report_cpu_temps (lines 93-130). The state is the
session start time, the current wall clock, and last_report_time; the clock
advances by each event's durations and by the pacing sleep. Returns the
session outcome together with the list of pacing sleeps actually performed
(the arguments passed to time.sleep at line 117, one entry per iteration that
executes the line-112 branch). -/
def sessionLoop (interval : ℚ) (path : List String) (start clock last : ℚ) :
    List IterEvent → SessionResult × List ℚ
  | [] => (.running, [])
  | e :: rest =>
    let clock1 := clock + e.acqDur
    match e.sensorRaw.bind (fun j => extractTemp path j) with
    | .error exc =>
      if recoverableExc exc then (.returns (last - start), [])
      else (.raises exc, [])
    | .ok _reading =>
      let slept : List ℚ :=
        if last ≠ start then [max 0 (interval - (clock1 - last))] else []
      let clock2 := clock1 + (if last ≠ start then max 0 (interval - (clock1 - last)) else 0)
      let last2 := clock2
      let clock3 := clock2 + e.writeDur
      if e.writeOk then
        let r := sessionLoop interval path start clock3 last2 rest
        (r.1, slept ++ r.2)
      else
        (.returns (last2 - start), slept)

/-- report_cpu_temps (lines 77-130), with start normalised to time 0. A failed
InfluxDBClient setup (lines 89-91) returns (last_report_time - start) with
last_report_time still equal to start, i.e. 0; otherwise the session loop
runs over the supplied events. -/
def report_cpu_temps (interval : ℚ) (path : List String) (connOk : Bool)
    (events : List IterEvent) : SessionResult × List ℚ :=
  if connOk then sessionLoop interval path 0 0 0 events
  else (.returns 0, [])

/-- The two mutable variables of the supervisor loop (lines 136-137). -/
structure BackoffState where
  backoff_skip : ℚ
  max_backoff_skip : ℚ
  deriving DecidableEq, Repr

/-- The divisor max(interval, 0.1) of line 137. -/
def backoffDivisor (interval : ℚ) : ℚ := max interval (1 / 10)

/-- Line 137: max_backoff_skip = back_off_max_interval / max(interval, 0.1). -/
def initMaxBackoffSkip (back_off_max_interval interval : ℚ) : ℚ :=
  back_off_max_interval / backoffDivisor interval

/-- The supervisor state as first entered at lines 136-137. -/
def initBackoffState (back_off_max_interval interval : ℚ) : BackoffState :=
  { backoff_skip := 2, max_backoff_skip := initMaxBackoffSkip back_off_max_interval interval }

/-- One iteration of the supervisor's while True loop (lines 139-148), given
the runtime returned by report_cpu_temps and the value grown that the
expression backoff_skip ** random.uniform(1, 2) evaluates to at line 143.
Returns the updated state and the delay bt slept at line 148. Note that
line 143 assigns grown to max_backoff_skip, not to backoff_skip; line 144
then compares backoff_skip against that freshly overwritten bound. -/
def supervisorStep (interval runtime grown : ℚ) (s : BackoffState) : BackoffState × ℚ :=
  let s2 :=
    if runtime > s.backoff_skip * interval then
      { s with backoff_skip := 2 }
    else if s.backoff_skip < s.max_backoff_skip then
      let m := grown
      { backoff_skip := if s.backoff_skip > m then m else s.backoff_skip,
        max_backoff_skip := m }
    else s
  (s2, s2.backoff_skip * interval)

/-- The supervisor loop run over a finite prefix of cycles, each cycle given
as a pair (runtime, grown). Returns the final state and the list of slept
backoff delays, one per cycle. -/
def supervisorRun (interval : ℚ) (s : BackoffState) :
    List (ℚ × ℚ) → BackoffState × List ℚ
  | [] => (s, [])
  | c :: rest =>
    let step := supervisorStep interval c.1 c.2 s
    let r := supervisorRun interval step.1 rest
    (r.1, step.2 :: r.2)

/-- The config values bound at lines 45-60 after a successful load. -/
structure LoadedConfig where
  log_file : Json
  server_name : Json
  influx_url : Json
  influx_org : Json
  influx_token : Json
  influx_bucket : Json
  influx_measurement : Json
  influx_field : Json
  influx_server_name_tag : Json
  log_success : Bool
  interval : ℚ
  back_off_max_interval : ℚ
  temp_access_path : Json

/-- Python truthiness bool(x), applied to log_success at line 56. -/
def pyBool (j : Json) : Bool :=
  match j with
  | .null => false
  | .bool b => b
  | .num q => if q = 0 then false else true
  | .str s => if s = "" then false else true
  | .arr xs => if xs.isEmpty then false else true
  | .obj kvs => if kvs.isEmpty then false else true

/-- Reading config[key] on the parsed config dict: KeyError when the key is
absent (the pattern of lines 45-60). -/
def cfgGet (config : List (String × Json)) (key : String) : Except PyExc Json :=
  match config.lookup key with
  | some v => .ok v
  | none => .error .keyError

/-- Lines 45-60: bind each config entry in source order. server_name defaults
to gethostname() only when the entry is present with value None (lines 46-48);
an absent key raises KeyError at the subscript itself. interval and
back_off_max_interval go through float() (lines 58-59). -/
def loadConfig (config : List (String × Json)) (hostname : String) :
    Except PyExc LoadedConfig := do
  let lf ← cfgGet config "log_file"
  let sn0 ← cfgGet config "server_name"
  let sn := if sn0.isNull then Json.str hostname else sn0
  let url ← cfgGet config "influx_url"
  let org ← cfgGet config "influx_org"
  let tok ← cfgGet config "influx_token"
  let bucket ← cfgGet config "influx_bucket"
  let meas ← cfgGet config "influx_measurement"
  let field ← cfgGet config "influx_field"
  let tag ← cfgGet config "influx_server_name_tag"
  let ls ← cfgGet config "log_success"
  let iv0 ← cfgGet config "interval"
  let iv ← pyFloat iv0
  let bo0 ← cfgGet config "back_off_max_interval"
  let bo ← pyFloat bo0
  let tap ← cfgGet config "temp_access_path"
  pure { log_file := lf, server_name := sn, influx_url := url, influx_org := org,
         influx_token := tok, influx_bucket := bucket, influx_measurement := meas,
         influx_field := field, influx_server_name_tag := tag, log_success := pyBool ls,
         interval := iv, back_off_max_interval := bo, temp_access_path := tap }

/-- Outcome of module startup: config loaded, exit(1) after logging (the
ValueError, KeyError and OSError handlers at lines 61-69), or an uncaught
exception re-raised by the blanket handler at lines 70-73. -/
inductive StartupOutcome where
  | started (cfg : LoadedConfig)
  | exited
  | crashed (e : PyExc)

/-- Module-level config loading with its exception handlers (lines 39-73). -/
def startup (config : List (String × Json)) (hostname : String) : StartupOutcome :=
  match loadConfig config hostname with
  | .ok cfg => .started cfg
  | .error e => if recoverableExc e then .exited else .crashed e

/-- Where log() writes (lines 30-36): standard error when log_file is None,
else appended to the named file. -/
inductive LogDest where
  | stderr
  | file (f : Json)

/-- The destination selection of the log function at lines 32-36. -/
def logDestination (lf : Json) : LogDest :=
  if lf.isNull then .stderr else .file lf

/-- The sample sensor output of the spec's key-path scenario, with 42.5 = 85/2. -/
def sampleJson : Json := .obj [("a", .obj [("b", .num (85/2))])]

/-- An iteration whose sensor read yields sampleJson, takes d seconds of
acquisition time, writes instantaneously, and whose write succeeds iff w. -/
def okEv (d : ℚ) (w : Bool) : IterEvent :=
  { acqDur := d, sensorRaw := .ok sampleJson, writeDur := 0, writeOk := w }

/-- A config dict carrying every entry the script reads except server_name. -/
def cfgNoServerName : List (String × Json) :=
  [("log_file", .null),
   ("influx_url", .str "http://localhost:8086"),
   ("influx_org", .str "org"),
   ("influx_token", .str "tok"),
   ("influx_bucket", .str "bkt"),
   ("influx_measurement", .str "cpu"),
   ("influx_field", .str "temp"),
   ("influx_server_name_tag", .str "host"),
   ("log_success", .bool false),
   ("interval", .num 5),
   ("back_off_max_interval", .num 600),
   ("temp_access_path", .arr [.str "a", .str "b"])]

/-- The same dict with server_name present but null (and log_file null). -/
def cfgNullServerName : List (String × Json) :=
  ("server_name", Json.null) :: cfgNoServerName

/-- Whether startup reached the point where the first session can begin. -/
def StartupOutcome.isStarted : StartupOutcome → Bool
  | .started _ => true
  | _ => false

/-! Helper lemmas shared by several claims. -/

lemma ext_ab : (Except.ok sampleJson).bind (fun j => extractTemp ["a", "b"] j)
    = .ok (85/2) := rfl

lemma ext_ac : (Except.ok sampleJson).bind (fun j => extractTemp ["a", "c"] j)
    = .error .keyError := rfl

lemma ext_leaf : (Except.ok (Json.obj [("a", Json.num 1)])).bind
    (fun j => extractTemp ["a", "b"] j) = .error .typeError := rfl

/-- A sensor or extraction failure ends the iteration at once: caught
exceptions return last_report_time - start, others escape. -/
lemma sessionLoop_sensor_fail (interval : ℚ) (path : List String)
    (start clock last : ℚ) (e : IterEvent) (rest : List IterEvent) (exc : PyExc)
    (hx : e.sensorRaw.bind (fun j => extractTemp path j) = .error exc) :
    sessionLoop interval path start clock last (e :: rest) =
      (if recoverableExc exc then .returns (last - start) else .raises exc, []) := by
  by_cases hc : recoverableExc exc <;> simp [sessionLoop, hx, hc]

/-- First iteration (last_report_time still equals start): no pacing sleep,
last_report_time moves to the post-acquisition clock, and on write success
the loop continues from there. -/
lemma sessionLoop_first_ok (interval : ℚ) (path : List String)
    (start clock : ℚ) (e : IterEvent) (rest : List IterEvent) (v : ℚ)
    (hx : e.sensorRaw.bind (fun j => extractTemp path j) = .ok v)
    (hw : e.writeOk = true) :
    sessionLoop interval path start clock start (e :: rest) =
      sessionLoop interval path start (clock + e.acqDur + e.writeDur) (clock + e.acqDur) rest := by
  simp [sessionLoop, hx, hw]

/-- First iteration with a failing write: the returned elapsed time is the
pre-write timestamp minus start, and no pacing sleep happened. -/
lemma sessionLoop_first_write_fail (interval : ℚ) (path : List String)
    (start clock : ℚ) (e : IterEvent) (rest : List IterEvent) (v : ℚ)
    (hx : e.sensorRaw.bind (fun j => extractTemp path j) = .ok v)
    (hw : e.writeOk = false) :
    sessionLoop interval path start clock start (e :: rest) =
      (.returns (clock + e.acqDur - start), []) := by
  simp [sessionLoop, hx, hw]

/-- Later iteration (last_report_time has moved past start) with a successful
write: the loop sleeps max 0 (interval - elapsed) where elapsed is measured
from last_report_time, then continues with last_report_time set to the
post-sleep clock. -/
lemma sessionLoop_later_ok (interval : ℚ) (path : List String)
    (start clock last : ℚ) (e : IterEvent) (rest : List IterEvent) (v : ℚ)
    (hx : e.sensorRaw.bind (fun j => extractTemp path j) = .ok v)
    (hw : e.writeOk = true) (hl : last ≠ start) :
    sessionLoop interval path start clock last (e :: rest) =
      ((sessionLoop interval path start
          (clock + e.acqDur + max 0 (interval - (clock + e.acqDur - last)) + e.writeDur)
          (clock + e.acqDur + max 0 (interval - (clock + e.acqDur - last))) rest).1,
        max 0 (interval - (clock + e.acqDur - last)) ::
          (sessionLoop interval path start
            (clock + e.acqDur + max 0 (interval - (clock + e.acqDur - last)) + e.writeDur)
            (clock + e.acqDur + max 0 (interval - (clock + e.acqDur - last))) rest).2) := by
  simp [sessionLoop, hx, hw, hl]

/-- Later iteration with a failing write: the session returns the post-sleep
pre-write timestamp minus start. -/
lemma sessionLoop_later_write_fail (interval : ℚ) (path : List String)
    (start clock last : ℚ) (e : IterEvent) (rest : List IterEvent) (v : ℚ)
    (hx : e.sensorRaw.bind (fun j => extractTemp path j) = .ok v)
    (hw : e.writeOk = false) (hl : last ≠ start) :
    sessionLoop interval path start clock last (e :: rest) =
      (.returns (clock + e.acqDur + max 0 (interval - (clock + e.acqDur - last)) - start),
        [max 0 (interval - (clock + e.acqDur - last))]) := by
  simp [sessionLoop, hx, hw, hl]

/-- With the growth value at least 2 (which backoff_skip ** u satisfies for
any exponent u at least 1 once backoff_skip is at least 2), one supervisor
cycle leaves backoff_skip exactly 2 and sleeps 2 * interval: the line-143
assignment targets max_backoff_skip, so the multiplier itself never moves. -/
lemma supervisorStep_bs_fixed (interval runtime grown : ℚ) (s : BackoffState)
    (hs : s.backoff_skip = 2) (hg : 2 ≤ grown) :
    (supervisorStep interval runtime grown s).1.backoff_skip = 2 ∧
      (supervisorStep interval runtime grown s).2 = 2 * interval := by
  unfold supervisorStep
  rw [hs]
  by_cases h1 : 2 * interval < runtime
  · simp [h1]
  · by_cases h2 : (2:ℚ) < s.max_backoff_skip
    · have h3 : ¬ (grown < 2) := not_lt.mpr hg
      simp [h1, h2, h3]
    · simp [h1, h2, hs]

/-- The multiplier stays pinned at 2 along any run whose growth values are
all at least 2, and every slept delay equals 2 * interval. -/
lemma supervisorRun_bs_fixed (interval : ℚ) (cycles : List (ℚ × ℚ)) :
    ∀ s : BackoffState, s.backoff_skip = 2 → (∀ c ∈ cycles, 2 ≤ c.2) →
      (supervisorRun interval s cycles).1.backoff_skip = 2 ∧
        ∀ bt ∈ (supervisorRun interval s cycles).2, bt = 2 * interval := by
  induction cycles with
  | nil => intro s hs _; simpa [supervisorRun] using hs
  | cons c rest ih =>
    intro s hs hg
    have hstep := supervisorStep_bs_fixed interval c.1 c.2 s hs
      (hg c (List.mem_cons_self c rest))
    have hrest := ih (supervisorStep interval c.1 c.2 s).1 hstep.1
      (fun d hd => hg d (List.mem_cons_of_mem c hd))
    refine ⟨by simpa [supervisorRun] using hrest.1, ?_⟩
    intro bt hbt
    simp only [supervisorRun, List.mem_cons] at hbt
    rcases hbt with h | h
    · rw [h]; exact hstep.2
    · exact hrest.2 bt h

lemma okEv_acqDur (d : ℚ) (w : Bool) : (okEv d w).acqDur = d := rfl

lemma okEv_writeDur (d : ℚ) (w : Bool) : (okEv d w).writeDur = 0 := rfl

/-- When the influx connection succeeds, report_cpu_temps is the session loop
started at time 0 with last_report_time equal to start. -/
lemma report_conn_ok (interval : ℚ) (path : List String) (events : List IterEvent) :
    report_cpu_temps interval path true events = sessionLoop interval path 0 0 0 events := rfl

/-- With nonnegative durations, last_report_time never falls behind start,
so every normal return of the session loop is nonnegative. -/
lemma sessionLoop_returns_nonneg (interval : ℚ) (path : List String) :
    ∀ (events : List IterEvent) (start clock last : ℚ),
      start ≤ last → last ≤ clock →
      (∀ e ∈ events, 0 ≤ e.acqDur ∧ 0 ≤ e.writeDur) →
      ∀ t, (sessionLoop interval path start clock last events).1 = .returns t → 0 ≤ t := by
  intro events
  induction events with
  | nil =>
    intro start clock last _ _ _ t ht
    simp [sessionLoop] at ht
  | cons e rest ih =>
    intro start clock last h1 h2 hd t ht
    have hde := hd e (List.mem_cons_self e rest)
    have hdr : ∀ x ∈ rest, 0 ≤ x.acqDur ∧ 0 ≤ x.writeDur :=
      fun x hx => hd x (List.mem_cons_of_mem e hx)
    cases hx : e.sensorRaw.bind (fun j => extractTemp path j) with
    | error exc =>
      rw [sessionLoop_sensor_fail interval path start clock last e rest exc hx] at ht
      by_cases hc : recoverableExc exc
      · simp [hc] at ht
        linarith [ht]
      · simp [hc] at ht
    | ok v =>
      by_cases hl : last = start
      · subst hl
        cases hw : e.writeOk
        · rw [sessionLoop_first_write_fail interval path last clock e rest v hx hw] at ht
          simp at ht
          linarith [ht, hde.1]
        · rw [sessionLoop_first_ok interval path last clock e rest v hx hw] at ht
          exact ih last (clock + e.acqDur + e.writeDur) (clock + e.acqDur)
            (by linarith [hde.1]) (by linarith [hde.2]) hdr t ht
      · cases hw : e.writeOk
        · rw [sessionLoop_later_write_fail interval path start clock last e rest v hx hw hl] at ht
          simp at ht
          have hm : (0:ℚ) ≤ max 0 (interval - (clock + e.acqDur - last)) := le_max_left 0 _
          linarith [ht, hde.1]
        · rw [sessionLoop_later_ok interval path start clock last e rest v hx hw hl] at ht
          simp only [] at ht
          have hm : (0:ℚ) ≤ max 0 (interval - (clock + e.acqDur - last)) := le_max_left 0 _
          exact ih start
            (clock + e.acqDur + max 0 (interval - (clock + e.acqDur - last)) + e.writeDur)
            (clock + e.acqDur + max 0 (interval - (clock + e.acqDur - last)))
            (by linarith [hde.1]) (by linarith [hde.2]) hdr t ht

/-! The claims. -/

/-- C1: Pinpoints the failing cycle: with backoff_skip = 2.0, cap
max_backoff_skip = 100, runtime 0 and a growth value backoff_skip ** u = 3
(an exponent u strictly inside [1, 2]), the claim says backoff_skip becomes 3;
the code instead leaves backoff_skip at 2.0 and overwrites max_backoff_skip
with 3, because line 143 assigns the grown value to max_backoff_skip and the
line-144 clamp can never fire (the grown value is at least backoff_skip). The
slept delay is still 2.0 * interval = 2. This contradicts the script's own
comment at line 135, which announces exponentially increasing backoff. -/
theorem C1_growth_assigned_to_wrong_variable :
    supervisorStep 1 0 3 { backoff_skip := 2, max_backoff_skip := 100 } =
      ({ backoff_skip := 2, max_backoff_skip := 3 }, 2) := by
  norm_num [supervisorStep]

/-- C2 counterexample: with interval = 1 and back_off_max_interval = 1 the
very first supervisor cycle (runtime 0, growth value 3) sleeps
backoff_skip * interval = 2, which exceeds back_off_max_interval = 1. So the
claim that every computed delay is at most back_off_max_interval is false. -/
theorem C2_counterexample_delay_exceeds_cap :
    (supervisorStep 1 0 3 (initBackoffState 1 1)).2 = 2 ∧
      ¬ ((supervisorStep 1 0 3 (initBackoffState 1 1)).2 ≤ 1) := by
  constructor <;>
    norm_num [supervisorStep, initBackoffState, initMaxBackoffSkip, backoffDivisor]

/-- C2 amended: along every supervisor run whose growth values are at least 2
(true of backoff_skip ** u for every exponent u in [1, 2] once backoff_skip is
at least 2), the multiplier backoff_skip stays at least 2.0 at every point,
and every slept delay is at most back_off_max_interval provided
2 * interval ≤ back_off_max_interval. The proviso is forced: the multiplier
never leaves its initial value 2.0, so each delay equals 2 * interval. -/
theorem C2_amended_multiplier_and_delay_bound
    (back_off_max_interval interval : ℚ) (cycles : List (ℚ × ℚ))
    (hg : ∀ c ∈ cycles, 2 ≤ c.2) (hcap : 2 * interval ≤ back_off_max_interval) :
    (∀ pre suf, cycles = pre ++ suf →
        2 ≤ (supervisorRun interval
          (initBackoffState back_off_max_interval interval) pre).1.backoff_skip) ∧
      ∀ bt ∈ (supervisorRun interval
          (initBackoffState back_off_max_interval interval) cycles).2,
        bt ≤ back_off_max_interval := by
  have hinit : (initBackoffState back_off_max_interval interval).backoff_skip = 2 := rfl
  constructor
  · intro pre suf hps
    have hgp : ∀ c ∈ pre, 2 ≤ c.2 := fun c hc => hg c (hps ▸ List.mem_append_left suf hc)
    exact le_of_eq (supervisorRun_bs_fixed interval pre _ hinit hgp).1.symm
  · intro bt hbt
    have h2 := (supervisorRun_bs_fixed interval cycles _ hinit hg).2 bt hbt
    rw [h2]; exact hcap

/-- C2 amended, witnessed at back_off_max_interval = 10, interval = 1 and a
single cycle with runtime 0 and growth value 3. -/
theorem C2_amended_multiplier_and_delay_bound_witness :
    (∀ pre suf, ([((0:ℚ), (3:ℚ))] : List (ℚ × ℚ)) = pre ++ suf →
        2 ≤ (supervisorRun 1 (initBackoffState 10 1) pre).1.backoff_skip) ∧
      ∀ bt ∈ (supervisorRun 1 (initBackoffState 10 1) [((0:ℚ), (3:ℚ))]).2, bt ≤ 10 :=
  C2_amended_multiplier_and_delay_bound 10 1 [(0, 3)] (by norm_num) (by norm_num)

/-- C3 counterexample: with interval 5 and per-iteration acquisition time
1/1000 s, three successful writes followed by a failed fourth write make
report_cpu_temps return 15.001 s, not approximately 10 s: well over 12 s,
i.e. more than two full intervals away from the claimed two-interval value. -/
theorem C3_counterexample_not_two_intervals :
    (report_cpu_temps 5 ["a", "b"] true
        [okEv (1/1000) true, okEv (1/1000) true, okEv (1/1000) true, okEv (1/1000) false]).1
      = .returns (15001/1000) ∧ ¬ ((15001:ℚ)/1000 ≤ 12) := by
  constructor
  · simp only [report_cpu_temps, sessionLoop, okEv, ext_ab, recoverableExc, if_true]
    norm_num
  · norm_num

/-- C3 amended: for every acquisition duration eps with 0 < eps < 5, the
session with three successful writes and a failed fourth write at interval 5
returns 15 + eps seconds, three full intervals: line 118 advances
last_report_time to the start of each write attempt before the write, so the
failed fourth attempt, not the last successful report, fixes the elapsed
time. -/
theorem C3_amended_sink_failure_elapsed (eps : ℚ) (h0 : 0 < eps) (h5 : eps < 5) :
    (report_cpu_temps 5 ["a", "b"] true
        [okEv eps true, okEv eps true, okEv eps true, okEv eps false]).1
      = .returns (15 + eps) := by
  have hne : eps ≠ 0 := ne_of_gt h0
  rw [report_conn_ok]
  rw [sessionLoop_first_ok 5 ["a", "b"] 0 0 (okEv eps true) _ (85/2) rfl rfl]
  simp only [okEv_acqDur, okEv_writeDur, zero_add, add_zero]
  rw [sessionLoop_later_ok 5 ["a", "b"] 0 eps eps (okEv eps true) _ (85/2) rfl rfl hne]
  simp only [okEv_acqDur, okEv_writeDur, zero_add, add_zero]
  rw [show eps + eps - eps = eps from by ring]
  rw [max_eq_right (by linarith : (0:ℚ) ≤ 5 - eps)]
  rw [show eps + eps + (5 - eps) = 5 + eps from by ring]
  have hne2 : (5:ℚ) + eps ≠ 0 := by positivity
  rw [sessionLoop_later_ok 5 ["a", "b"] 0 (5 + eps) (5 + eps) (okEv eps true) _ (85/2) rfl rfl hne2]
  simp only [okEv_acqDur, okEv_writeDur, zero_add, add_zero]
  rw [show 5 + eps + eps - (5 + eps) = eps from by ring]
  rw [max_eq_right (by linarith : (0:ℚ) ≤ 5 - eps)]
  rw [show 5 + eps + eps + (5 - eps) = 10 + eps from by ring]
  have hne3 : (10:ℚ) + eps ≠ 0 := by positivity
  rw [sessionLoop_later_write_fail 5 ["a", "b"] 0 (10 + eps) (10 + eps) (okEv eps false) _
    (85/2) rfl rfl hne3]
  simp only [okEv_acqDur, okEv_writeDur, zero_add, add_zero]
  rw [show 10 + eps + eps - (10 + eps) = eps from by ring]
  rw [max_eq_right (by linarith : (0:ℚ) ≤ 5 - eps)]
  simp only [SessionResult.returns.injEq]
  ring

/-- C3 amended, witnessed at eps = 1/1000. -/
theorem C3_amended_sink_failure_elapsed_witness :
    (report_cpu_temps 5 ["a", "b"] true
        [okEv (1/1000) true, okEv (1/1000) true, okEv (1/1000) true, okEv (1/1000) false]).1
      = .returns (15 + 1/1000) :=
  C3_amended_sink_failure_elapsed (1/1000) (by norm_num) (by norm_num)

/-- C4 counterexample: a key-path that descends into a non-container leaf
(path a.b over the output where a holds the number 1) raises TypeError, which
the except clause at line 103 does not list, so the exception escapes
report_cpu_temps instead of being converted into an elapsed-time return. -/
theorem C4_counterexample_leaf_descent_escapes :
    (report_cpu_temps 1 ["a", "b"] true
        [{ acqDur := 0, sensorRaw := .ok (.obj [("a", .num 1)]), writeDur := 0,
           writeOk := true }]).1
      = .raises .typeError := by
  simp only [report_cpu_temps, sessionLoop, ext_leaf, recoverableExc, if_true]
  norm_num

/-- C4 amended: an extraction failure ends the session at once, and the
boundary catches exactly OSError, KeyError and ValueError — missing keys,
non-numeric string values, parse and command errors return an elapsed time,
while the TypeError of descending into a non-container leaf escapes
report_cpu_temps and terminates the process. -/
theorem C4_amended_catch_boundary (interval : ℚ) (path : List String)
    (e : IterEvent) (rest : List IterEvent) (exc : PyExc)
    (hx : e.sensorRaw.bind (fun j => extractTemp path j) = .error exc) :
    (report_cpu_temps interval path true (e :: rest)).1 =
      (if recoverableExc exc then .returns 0 else .raises exc) ∧
      recoverableExc .keyError = true ∧ recoverableExc .valueError = true ∧
      recoverableExc .osError = true ∧ recoverableExc .typeError = false := by
  refine ⟨?_, rfl, rfl, rfl, rfl⟩
  simp only [report_cpu_temps, if_true]
  rw [sessionLoop_sensor_fail interval path 0 0 0 e rest exc hx]
  by_cases hc : recoverableExc exc <;> simp [hc]

/-- C4 amended, witnessed on the missing-key failure of path a.c. -/
theorem C4_amended_catch_boundary_witness :
    (report_cpu_temps 7 ["a", "c"] true [okEv 1 true, okEv 1 true]).1 =
      (if recoverableExc .keyError then .returns 0 else .raises .keyError) ∧
      recoverableExc .keyError = true ∧ recoverableExc .valueError = true ∧
      recoverableExc .osError = true ∧ recoverableExc .typeError = false :=
  C4_amended_catch_boundary 7 ["a", "c"] (okEv 1 true) [okEv 1 true] .keyError rfl

/-- C5: whenever the session runtime strictly exceeds backoff_skip * interval,
the supervisor resets backoff_skip to its base value 2.0 before computing the
next delay (lines 140-141), for every state and growth value. -/
theorem C5_healthy_runtime_resets_backoff (interval runtime grown : ℚ)
    (s : BackoffState) (h : runtime > s.backoff_skip * interval) :
    (supervisorStep interval runtime grown s).1.backoff_skip = 2 := by
  unfold supervisorStep
  simp [h]

/-- C5 witnessed at runtime 5 against a window of 2 * 1. -/
theorem C5_healthy_runtime_resets_backoff_witness :
    (supervisorStep 1 5 3 { backoff_skip := 2, max_backoff_skip := 100 }).1.backoff_skip = 2 :=
  C5_healthy_runtime_resets_backoff 1 5 3 { backoff_skip := 2, max_backoff_skip := 100 }
    (by norm_num)

/-- C6: in a session whose first iteration acquires in positive time and
writes successfully, the list of performed pacing sleeps starts with the
second iteration's sleep max 0 (interval - elapsed) — so the first iteration
slept nothing — where elapsed is the time since the first report (the first
write's duration plus the second acquisition); and from any mid-session state
whose last_report_time has moved past start, the next performed sleep is
max 0 (interval - elapsed) with elapsed measured from last_report_time to the
post-acquisition clock. -/
theorem C6_pacing_sleep (interval : ℚ) (path : List String) :
    (∀ (e1 e2 : IterEvent) (rest : List IterEvent) (v1 v2 : ℚ),
        e1.sensorRaw.bind (fun j => extractTemp path j) = .ok v1 →
        e2.sensorRaw.bind (fun j => extractTemp path j) = .ok v2 →
        e1.writeOk = true → 0 < e1.acqDur →
        ∃ tail, (report_cpu_temps interval path true (e1 :: e2 :: rest)).2 =
          max 0 (interval - (e1.writeDur + e2.acqDur)) :: tail) ∧
    (∀ (start clock last : ℚ) (e : IterEvent) (rest : List IterEvent) (v : ℚ),
        last ≠ start →
        e.sensorRaw.bind (fun j => extractTemp path j) = .ok v →
        ∃ tail, (sessionLoop interval path start clock last (e :: rest)).2 =
          max 0 (interval - (clock + e.acqDur - last)) :: tail) := by
  have mid : ∀ (start clock last : ℚ) (e : IterEvent) (rest : List IterEvent) (v : ℚ),
      last ≠ start → e.sensorRaw.bind (fun j => extractTemp path j) = .ok v →
      ∃ tail, (sessionLoop interval path start clock last (e :: rest)).2 =
        max 0 (interval - (clock + e.acqDur - last)) :: tail := by
    intro start clock last e rest v hl hx
    cases hw : e.writeOk
    · rw [sessionLoop_later_write_fail interval path start clock last e rest v hx hw hl]
      exact ⟨[], rfl⟩
    · rw [sessionLoop_later_ok interval path start clock last e rest v hx hw hl]
      exact ⟨_, rfl⟩
  refine ⟨?_, mid⟩
  intro e1 e2 rest v1 v2 hx1 hx2 hw1 ha
  rw [report_conn_ok, sessionLoop_first_ok interval path 0 0 e1 _ v1 hx1 hw1]
  have hl : (0:ℚ) + e1.acqDur ≠ 0 := by
    rw [zero_add]; exact ne_of_gt ha
  obtain ⟨tail, ht⟩ := mid 0 (0 + e1.acqDur + e1.writeDur) (0 + e1.acqDur) e2 rest v2 hl hx2
  refine ⟨tail, ?_⟩
  rw [ht, show (0:ℚ) + e1.acqDur + e1.writeDur + e2.acqDur - (0 + e1.acqDur)
    = e1.writeDur + e2.acqDur from by ring]

/-- C6 witnessed on two instantly-writing iterations of 1/1000 s acquisition
at interval 5. -/
theorem C6_pacing_sleep_witness :
    ∃ tail, (report_cpu_temps 5 ["a", "b"] true [okEv (1/1000) true, okEv (1/1000) true]).2 =
      max 0 (5 - ((okEv (1/1000) true).writeDur + (okEv (1/1000) true).acqDur)) :: tail :=
  (C6_pacing_sleep 5 ["a", "b"]).1 (okEv (1/1000) true) (okEv (1/1000) true) [] (85/2) (85/2)
    rfl rfl rfl (by norm_num [okEv_acqDur])

/-- C7: on the sample output with a.b holding 42.5 = 85/2, the key-path a.b
extracts 85/2; the key-path a.c fails with KeyError, which the session
boundary catches, so the session returns an elapsed time instead of raising. -/
theorem C7_keypath_resolution :
    extractTemp ["a", "b"] sampleJson = .ok (85/2) ∧
      extractTemp ["a", "c"] sampleJson = .error .keyError ∧
      recoverableExc .keyError = true ∧
      (report_cpu_temps 5 ["a", "c"] true [okEv (1/1000) true]).1 = .returns 0 := by
  refine ⟨rfl, rfl, rfl, ?_⟩
  simp only [report_cpu_temps, if_true]
  rw [sessionLoop_sensor_fail 5 ["a", "c"] 0 0 0 (okEv (1/1000) true) [] .keyError rfl]
  norm_num [recoverableExc]

/-- C8 counterexample: a config carrying every entry except server_name does
not start up — the subscript at line 46 raises KeyError and the handler at
lines 64-66 exits — contradicting the claim that startup still succeeds with
a hostname default. -/
theorem C8_counterexample_missing_key_aborts :
    (startup cfgNoServerName "myhost").isStarted = false ∧
      startup cfgNoServerName "myhost" = .exited := by
  constructor <;> rfl

/-- C8 amended: the defaults apply to entries that are present with value
null, not to absent entries: with server_name and log_file both null, startup
succeeds, the reporting identity is the local host name and diagnostics go to
standard error; with the server_name key absent, loading raises KeyError and
startup aborts. -/
theorem C8_amended_null_entry_defaults (hostname : String) :
    (∃ cfg, loadConfig cfgNullServerName hostname = .ok cfg ∧
        cfg.server_name = .str hostname ∧
        logDestination cfg.log_file = .stderr ∧
        startup cfgNullServerName hostname = .started cfg) ∧
      loadConfig cfgNoServerName hostname = .error .keyError := by
  refine ⟨⟨_, rfl, rfl, rfl, rfl⟩, rfl⟩

/-- C9: for nonnegative acquisition and write durations, every value returned
by report_cpu_temps is nonnegative: last_report_time starts at start and only
ever advances, and each return path yields last_report_time - start. -/
theorem C9_elapsed_nonneg (interval : ℚ) (path : List String) (connOk : Bool)
    (events : List IterEvent)
    (hd : ∀ e ∈ events, 0 ≤ e.acqDur ∧ 0 ≤ e.writeDur)
    (t : ℚ) (ht : (report_cpu_temps interval path connOk events).1 = .returns t) :
    0 ≤ t := by
  cases connOk
  · simp [report_cpu_temps] at ht
    linarith [ht]
  · rw [report_conn_ok] at ht
    exact sessionLoop_returns_nonneg interval path events 0 0 0 le_rfl le_rfl hd t ht

/-- C9 witnessed on the three-successes-then-failure run, whose return value
15001/1000 is nonnegative. -/
theorem C9_elapsed_nonneg_witness : (0:ℚ) ≤ 15001/1000 :=
  C9_elapsed_nonneg 5 ["a", "b"] true
    [okEv (1/1000) true, okEv (1/1000) true, okEv (1/1000) true, okEv (1/1000) false]
    (by intro e he; fin_cases he <;> norm_num [okEv]) (15001/1000)
    (by simp only [report_cpu_temps, sessionLoop, okEv, ext_ab, recoverableExc, if_true]; norm_num)

/-- C10: the divisor max(interval, 0.1) of line 137 is strictly positive for
every interval, so the cap computation never divides by zero; at interval 0
the cap is back_off_max_interval / 0.1 = 10 * back_off_max_interval. -/
theorem C10_divisor_guarded (back_off_max_interval interval : ℚ) :
    0 < backoffDivisor interval ∧
      initMaxBackoffSkip back_off_max_interval 0 = 10 * back_off_max_interval := by
  constructor
  · exact lt_of_lt_of_le (by norm_num) (le_max_right interval (1/10))
  · unfold initMaxBackoffSkip backoffDivisor
    rw [max_eq_right (by norm_num : (0:ℚ) ≤ 1/10), div_eq_mul_inv]
    norm_num [mul_comm]

end CpuTemps
